import Mathlib

/-!
Verification of the actix `Supervisor` core (`src/supervisor.rs`).

This file gives a shallow embedding of the supervisor module of the actix
actor runtime and proves properties of it.

The repository ships a single source file, `src/supervisor.rs`.  Its external
collaborators (`Context`, `Arbiter`, the address/channel library, the mailbox)
are interfaces only; where a definition below stands in for one of them it is
modelled from the specification and says so in its doc comment.

Two views of the same Rust data are embedded:

* the *drive/restart state machine* (`Ctx`, `Supervisor`, `Supervisor.poll`),
  a faithful translation of `impl Future for Supervisor` (lines 145-157 of
  the source), with the `Context`'s observable behaviour given by scripts
  (the result of its n-th `poll` call and of its n-th `restart` call) and an
  explicit fuel argument because the Rust `loop` need not terminate;
* the *construction paths* (`Supervisor.start`, `Supervisor.start_in`,
  lines 100-134 of the source), embedded as state-passing functions over a
  `World` that records every observable operation performed on the external
  collaborators as an `Event`, so that ordering claims can be stated as
  equations on event traces.
-/

set_option autoImplicit false

/-!
Futures vocabulary.  `Async` and `Poll` mirror the `futures` crate types used
by the source: `Async<T>` is `NotReady | Ready(T)` and `Poll<T, E>` is
`Result<Async<T>, E>`.
-/

/-- Mirror of `futures::Async<α>`: either not ready, or ready with a value. -/
inductive Async (α : Type) : Type
  | notReady : Async α
  | ready (value : α) : Async α
  deriving DecidableEq, Repr

/-- Mirror of `futures::Poll<α, ε> = Result<Async<α>, ε>`. -/
abbrev Poll (α ε : Type) := Except ε (Async α)

/-!
The drive/restart state machine.  The `Context` type itself lives outside
`src/` (only `supervisor.rs` is in the repository), so its state is modelled
from the spec: identity fields that its operations never touch, scripts
giving the outcome of each successive `poll`/`restart` call, and a restart
hook acting on opaque actor state.
-/

/-- Modelled from the spec: the execution `Context` as seen by the
`Supervisor`.  `src/` lacks `context.rs`; the spec says a Context bundles one
actor's mailbox, actor value and address registry, that its identity (and
hence its Address) is stable across restarts, and that restart runs only the
actor's hook, never reconstructing the actor value.

* `addrId` — identity of the mailbox/address the Context owns;
* `actorGen` — generation of the owned actor value: bumped only by
  construction, never by restart, so it witnesses "the actor value is never
  reconstructed";
* `actorState` — the actor's opaque user state, of type `σ`;
* `driveScript n` — the outcome the Context's drive operation reports on its
  n-th invocation (`Ok(NotReady)` = suspended, `Ok(Ready(()))` = completed,
  `Err(())` = failed);
* `connected n` — the connectivity the Context observes at its n-th restart
  check;
* `hook` — the `Supervised::restarting` hook's effect on the actor state;
* `drives`, `restarts` — how many drive / restart calls have happened. -/
structure Ctx (σ : Type) : Type where
  addrId : Nat
  actorGen : Nat
  actorState : σ
  driveScript : Nat → Poll Unit Unit
  connected : Nat → Bool
  hook : σ → σ
  drives : Nat
  restarts : Nat

/-- Modelled from the spec: the Context's single-step drive operation
(`self.ctx.poll()` in the source): processes available work and reports
suspended, completed or failed; here the report is read off the script. -/
def Ctx.poll {σ : Type} (c : Ctx σ) : Poll Unit Unit × Ctx σ :=
  (c.driveScript c.drives, { c with drives := c.drives + 1 })

/-- Modelled from the spec: the Context's restart operation
(`self.ctx.restart()` in the source): evaluates connectivity; when still
connected it runs the actor's restart hook in place and reports `true`, when
disconnected it reports `false`.  It never touches the mailbox/address
identity and never reconstructs the actor value. -/
def Ctx.restart {σ : Type} (c : Ctx σ) : Bool × Ctx σ :=
  if c.connected c.restarts then
    (true, { c with restarts := c.restarts + 1, actorState := c.hook c.actorState })
  else
    (false, { c with restarts := c.restarts + 1 })

/-- The supervisor: owns exactly one `Context` (the single `ctx` field of the
Rust struct `Supervisor<A>`). -/
structure Supervisor (σ : Type) : Type where
  ctx : Ctx σ

/-- Translation of `<Supervisor as Future>::poll` (source lines 145-157),
with explicit fuel for the Rust `loop`:

```rust
loop {
    match self.ctx.poll() {
        Ok(Async::NotReady) => return Ok(Async::NotReady),
        Ok(Async::Ready(_)) | Err(_) => {
            if !self.ctx.restart() {
                return Ok(Async::Ready(()));
            }
        }
    }
}
```

`none` means the loop consumed all fuel without returning; `some (r, s)` means
it returned `r` with the supervisor left in state `s`. -/
def Supervisor.poll {σ : Type} : Nat → Supervisor σ → Option (Poll Unit Unit × Supervisor σ)
  | 0, _ => none
  | fuel + 1, s =>
    match s.ctx.poll with
    | (Except.ok Async.notReady, c) => some (Except.ok Async.notReady, ⟨c⟩)
    | (Except.ok (Async.ready _), c) | (Except.error _, c) =>
      match c.restart with
      | (true, c2) => Supervisor.poll fuel ⟨c2⟩
      | (false, c2) => some (Except.ok (Async.ready ()), ⟨c2⟩)

/-!
The construction paths: `start` and `start_in`.

`Context::new`, `Context::with_receiver`, `ctx.address()`, `ctx.set_actor`,
`Arbiter::spawn`, `sync_channel::channel`, `Addr::new` and
`addr.do_send(Execute::new(..))` are all operations on collaborators that
live outside `src/`.  Each is modelled from the spec as a state-passing
function over a `World` that logs every observable operation as an `Event`,
so the order in which `start`/`start_in` perform them is an equation on the
event trace.
-/

/-- An observable operation performed on an external collaborator during
actor construction.  Mailboxes and channel pairs are identified by `Nat`
ids drawn from a `World` counter. -/
inductive Event : Type
  | contextNew (receiver : Option Nat) (mailboxId : Nat)
  | runInit (mailboxId : Nat)
  | extractAddress (mailboxId : Nat)
  | setActor (mailboxId : Nat)
  | spawnSupervisor (mailboxId : Nat)
  | channelAlloc (capacity : Nat) (pairId : Nat)
  | sendExecute (target : Nat)
  deriving DecidableEq, Repr

/-- The state threaded through construction: a fresh-id counter and the
trace of events so far. -/
structure World : Type where
  nextId : Nat
  events : List Event
  deriving DecidableEq, Repr

/-- Append one event to the trace. -/
def World.log (w : World) (e : Event) : World :=
  { w with events := w.events ++ [e] }

/-- Modelled from the spec: the construction-time view of a `Context<A>`
(`src/` lacks `context.rs`).  `mailboxId` is the identity of the mailbox the
Context owns (and hence of its Address); `receiver` is the pre-created
external receiver end when one was supplied; `actor` is the owned actor
slot, empty until `set_actor`. -/
structure CtxModel (α : Type) : Type where
  mailboxId : Nat
  receiver : Option Nat
  actor : Option α
  deriving DecidableEq, Repr

/-- Modelled from the spec: `Context::new(None)` — build a new Context with a
freshly allocated default-capacity mailbox and no external receiver; the
actor slot starts empty. -/
def Context.new {α : Type} (w : World) : CtxModel α × World :=
  (⟨w.nextId, none, none⟩,
   { nextId := w.nextId + 1
     events := w.events ++ [Event.contextNew none w.nextId] })

/-- Modelled from the spec: `Context::with_receiver(None, rx)` — build a new
Context whose mailbox transport is the pre-created receiver end `rx`; the
actor slot starts empty. -/
def Context.with_receiver {α : Type} (rx : Nat) (w : World) : CtxModel α × World :=
  (⟨rx, some rx, none⟩, w.log (Event.contextNew (some rx) rx))

/-- Modelled from the spec: a cross-thread-safe `Addr<Syn, A>`; `target` is
the mailbox the address enqueues into. -/
structure Addr : Type where
  target : Nat
  deriving DecidableEq, Repr

/-- Modelled from the spec: `ctx.address()` logs the extraction and returns a
handle to the Context's mailbox. -/
def CtxModel.address {α : Type} (c : CtxModel α) (w : World) : Addr × World :=
  (⟨c.mailboxId⟩, w.log (Event.extractAddress c.mailboxId))

/-- Modelled from the spec: `ctx.set_actor(act)` — attach the actor value to
the Context's actor slot. -/
def CtxModel.set_actor {α : Type} (c : CtxModel α) (act : α) (w : World) :
    CtxModel α × World :=
  ({ c with actor := some act }, w.log (Event.setActor c.mailboxId))

/-- The construction-time view of the Rust value `Supervisor { ctx }` that
`start`/`start_in` hand to `Arbiter::spawn`. -/
structure SupervisorTask (α : Type) : Type where
  ctx : CtxModel α
  deriving DecidableEq, Repr

/-- Modelled from the spec: `Arbiter::spawn` — schedule the supervisor task
onto the current event loop. -/
def Arbiter.spawn {α : Type} (t : SupervisorTask α) (w : World) : World :=
  w.log (Event.spawnSupervisor t.ctx.mailboxId)

/-- Modelled from the spec: the default mailbox capacity
(`mailbox::DEFAULT_CAPACITY`; its numeric value is immaterial here, only
that the same named constant is used). -/
def DEFAULT_CAPACITY : Nat := 16

/-- Modelled from the spec: `sync_channel::channel(cap)` — allocate a bounded
channel pair at capacity `cap`; sender and receiver ends carry the pair's
fresh id. -/
def sync_channel.channel (cap : Nat) (w : World) : (Nat × Nat) × World :=
  ((w.nextId, w.nextId),
   { nextId := w.nextId + 1
     events := w.events ++ [Event.channelAlloc cap w.nextId] })

/-- Modelled from the spec: `Addr::new(tx)` — a cross-thread-safe address
wrapping a sender end. -/
def Addr.new (tx : Nat) : Addr := ⟨tx⟩

/-- Modelled from the spec: the `Execute` message — a one-shot deferred
closure plus its success/failure signal, consumed at most once by the event
loop that receives it and never retried. -/
structure Execute : Type where
  run : World → Except Unit Unit × World

/-- Modelled from the spec: `Execute::new(f)`. -/
def Execute.new (f : World → Except Unit Unit × World) : Execute := ⟨f⟩

/-- Modelled from the spec: `addr.do_send(msg)` — enqueue the one-shot
Execute request to the target event loop; delivery is at-most-once and the
message itself is held by the runtime, not by this `World`. -/
def Addr.do_send (a : Addr) (_msg : Execute) (w : World) : World :=
  w.log (Event.sendExecute a.target)

/-- Translation of `Supervisor::start` (source lines 100-115).  The caller's
closure `f : FnOnce(&mut Context<A>) -> A` is embedded as a function from
the Context model to the actor value and the (possibly mutated) Context:

```rust
let mut ctx = Context::new(None);
let act = f(&mut ctx);
let addr = ctx.address();
ctx.set_actor(act);
Arbiter::spawn(Supervisor::<A> { ctx });
addr
```
-/
def Supervisor.start {α : Type} (f : CtxModel α → α × CtxModel α) (w : World) :
    Addr × World :=
  let (ctx, w1) := Context.new w
  let w2 := w1.log (Event.runInit ctx.mailboxId)
  let (act, ctx1) := f ctx
  let (addr, w3) := ctx1.address w2
  let (ctx2, w4) := ctx1.set_actor act w3
  let w5 := Arbiter.spawn ⟨ctx2⟩ w4
  (addr, w5)

/-- The body of the closure `start_in` packs into its `Execute` request
(source lines 125-131), as run on the target thread:

```rust
let mut ctx = Context::with_receiver(None, rx);
let act = f(&mut ctx);
ctx.set_actor(act);
Arbiter::spawn(Supervisor::<A> { ctx });
Ok(())
```
-/
def Supervisor.startInBody {α : Type} (f : CtxModel α → α × CtxModel α) (rx : Nat)
    (w : World) : Except Unit Unit × World :=
  let (ctx, w1) := Context.with_receiver rx w
  let w2 := w1.log (Event.runInit ctx.mailboxId)
  let (act, ctx1) := f ctx
  let (ctx2, w3) := ctx1.set_actor act w2
  let w4 := Arbiter.spawn ⟨ctx2⟩ w3
  (Except.ok (), w4)

/-- Translation of `Supervisor::start_in` (source lines 118-134).  Besides
the returned address, the embedding also returns the `Execute` payload it
sent, because cross-thread delivery happens outside this core: the payload
is what the target event loop would run.

```rust
let (tx, rx) = sync_channel::channel(DEFAULT_CAPACITY);
addr.do_send(Execute::new(move || -> Result<(), ()> { ... }));
Addr::new(tx)
```
-/
def Supervisor.start_in {α : Type} (arb : Addr) (f : CtxModel α → α × CtxModel α)
    (w : World) : (Addr × Execute) × World :=
  let (pair, w1) := sync_channel.channel DEFAULT_CAPACITY w
  let ex := Execute.new (Supervisor.startInBody f pair.2)
  let w2 := arb.do_send ex w1
  ((Addr.new pair.1, ex), w2)

/-!
Concrete sample data used by the closed witness theorems below.
-/

/-- A Context whose drive operation reports suspended (`Ok(NotReady)`) on
every invocation. -/
def suspCtx : Ctx Nat :=
  { addrId := 3
    actorGen := 1
    actorState := 0
    driveScript := fun _ => Except.ok Async.notReady
    connected := fun _ => true
    hook := Nat.succ
    drives := 0
    restarts := 0 }

/-- A Context whose drive operation reports failed (`Err(())`) on every
invocation and whose address stays connected forever. -/
def failLoopCtx : Ctx Nat :=
  { suspCtx with
    driveScript := fun _ => Except.error ()
    connected := fun _ => true }

/-- A Context whose drive operation reports failed (`Err(())`) on every
invocation and whose address is already disconnected. -/
def failStopCtx : Ctx Nat :=
  { suspCtx with
    driveScript := fun _ => Except.error ()
    connected := fun _ => false }

/-- A sample caller closure: yields actor value `0`, leaves the Context
untouched. -/
def sampleInit : CtxModel Nat → Nat × CtxModel Nat := fun c => (0, c)

/-- A fresh world with no recorded events. -/
def startWorld : World := ⟨0, []⟩

/-- Whether an event is the enqueueing of an `Execute` request. -/
def Event.isSendExecute : Event → Bool
  | Event.sendExecute _ => true
  | _ => false

/-!
Step lemmas for `Supervisor.poll`: one unfolding of the Rust loop in each of
the three situations the Context's drive report can put it in.
-/

/-- One loop iteration when the drive report is suspended: `poll` returns
`Ok(Async::NotReady)` at once; the drive counter advances by exactly one and
nothing else in the Context changes (in particular no restart happens). -/
theorem Supervisor.poll_step_suspended {σ : Type} (s : Supervisor σ) (fuel : Nat)
    (h : s.ctx.driveScript s.ctx.drives = Except.ok Async.notReady) :
    Supervisor.poll (fuel + 1) s =
      some (Except.ok Async.notReady, ⟨{ s.ctx with drives := s.ctx.drives + 1 }⟩) := by
  simp [Supervisor.poll, Ctx.poll, h]

/-- One loop iteration when the drive report is completed or failed and the
restart check finds the Context still connected: the hook runs and the loop
continues with the remaining fuel. -/
theorem Supervisor.poll_step_loop {σ : Type} (s : Supervisor σ) (fuel : Nat)
    (h : s.ctx.driveScript s.ctx.drives = Except.ok (Async.ready ()) ∨
         s.ctx.driveScript s.ctx.drives = Except.error ())
    (hc : s.ctx.connected s.ctx.restarts = true) :
    Supervisor.poll (fuel + 1) s =
      Supervisor.poll fuel
        ⟨{ s.ctx with
            drives := s.ctx.drives + 1
            restarts := s.ctx.restarts + 1
            actorState := s.ctx.hook s.ctx.actorState }⟩ := by
  rcases h with h | h <;> simp [Supervisor.poll, Ctx.poll, Ctx.restart, h, hc]

/-- One loop iteration when the drive report is completed or failed and the
restart check finds the Context disconnected: `poll` returns
`Ok(Async::Ready(()))` at once. -/
theorem Supervisor.poll_step_stop {σ : Type} (s : Supervisor σ) (fuel : Nat)
    (h : s.ctx.driveScript s.ctx.drives = Except.ok (Async.ready ()) ∨
         s.ctx.driveScript s.ctx.drives = Except.error ())
    (hc : s.ctx.connected s.ctx.restarts = false) :
    Supervisor.poll (fuel + 1) s =
      some (Except.ok (Async.ready ()),
        ⟨{ s.ctx with
            drives := s.ctx.drives + 1
            restarts := s.ctx.restarts + 1 }⟩) := by
  rcases h with h | h <;> simp [Supervisor.poll, Ctx.poll, Ctx.restart, h, hc]

/-- Whenever `poll` yields `Ok(Async::NotReady)`, the very last drive report
before returning was suspended. -/
theorem Supervisor.poll_notReady_last_drive_suspended {σ : Type} :
    ∀ (fuel : Nat) (s : Supervisor σ) (res : Poll Unit Unit) (s' : Supervisor σ),
      Supervisor.poll fuel s = some (res, s') → res = Except.ok Async.notReady →
      0 < s'.ctx.drives ∧
        s'.ctx.driveScript (s'.ctx.drives - 1) = Except.ok Async.notReady := by
  intro fuel
  induction fuel with
  | zero =>
    intro s res s' h hres
    simp [Supervisor.poll] at h
  | succ n ih =>
    intro s res s' h hres
    cases hds : s.ctx.driveScript s.ctx.drives with
    | ok a =>
      cases a with
      | notReady =>
        rw [Supervisor.poll_step_suspended s n hds] at h
        simp only [Option.some.injEq, Prod.mk.injEq] at h
        obtain ⟨h1, h2⟩ := h
        subst h2
        exact ⟨Nat.succ_pos _, by simpa using hds⟩
      | ready v =>
        cases v
        by_cases hc : s.ctx.connected s.ctx.restarts
        · rw [Supervisor.poll_step_loop s n (Or.inl hds) hc] at h
          exact ih _ _ _ h hres
        · rw [Supervisor.poll_step_stop s n (Or.inl hds) (by simpa using hc)] at h
          simp only [Option.some.injEq, Prod.mk.injEq] at h
          obtain ⟨h1, h2⟩ := h
          rw [← h1] at hres
          exact absurd hres (by simp)
    | error e =>
      cases e
      by_cases hc : s.ctx.connected s.ctx.restarts
      · rw [Supervisor.poll_step_loop s n (Or.inr hds) hc] at h
        exact ih _ _ _ h hres
      · rw [Supervisor.poll_step_stop s n (Or.inr hds) (by simpa using hc)] at h
        simp only [Option.some.injEq, Prod.mk.injEq] at h
        obtain ⟨h1, h2⟩ := h
        rw [← h1] at hres
        exact absurd hres (by simp)

/-!
The claims.
-/

/-- Claim C1: on every drive step in which the Context's drive operation
reports completed (`Ok(Async::Ready(()))`) or failed (`Err(())`), the
Supervisor evaluates connectivity via the Context's restart operation, and
`poll` returns `Ok(Async::Ready(()))` to the scheduler at that decision
point if and only if the restart reports the Context disconnected (when it
reports still-connected the same `poll` call keeps looping after the hook
ran).  The single equation holds under the disjunctive hypothesis, so the
completed and failed outcomes are handled by the identical decision path. -/
theorem Supervisor.poll_ready_iff_restart_disconnected {σ : Type} (s : Supervisor σ)
    (fuel : Nat)
    (h : s.ctx.driveScript s.ctx.drives = Except.ok (Async.ready ()) ∨
         s.ctx.driveScript s.ctx.drives = Except.error ()) :
    Supervisor.poll (fuel + 1) s =
      if s.ctx.connected s.ctx.restarts then
        Supervisor.poll fuel
          ⟨{ s.ctx with
              drives := s.ctx.drives + 1
              restarts := s.ctx.restarts + 1
              actorState := s.ctx.hook s.ctx.actorState }⟩
      else
        some (Except.ok (Async.ready ()),
          ⟨{ s.ctx with
              drives := s.ctx.drives + 1
              restarts := s.ctx.restarts + 1 }⟩) := by
  by_cases hc : s.ctx.connected s.ctx.restarts
  · rw [if_pos hc]
    exact Supervisor.poll_step_loop s fuel h hc
  · rw [if_neg hc]
    exact Supervisor.poll_step_stop s fuel h (by simpa using hc)

/-- Witness for C1: a concrete disconnected failing Context, with the
hypothesis discharged at drive index 0. -/
theorem Supervisor.poll_ready_iff_restart_disconnected_witness :
    Supervisor.poll 1 (⟨failStopCtx⟩ : Supervisor Nat) =
      if failStopCtx.connected failStopCtx.restarts then
        Supervisor.poll 0
          ⟨{ failStopCtx with
              drives := failStopCtx.drives + 1
              restarts := failStopCtx.restarts + 1
              actorState := failStopCtx.hook failStopCtx.actorState }⟩
      else
        some (Except.ok (Async.ready ()),
          ⟨{ failStopCtx with
              drives := failStopCtx.drives + 1
              restarts := failStopCtx.restarts + 1 }⟩) :=
  Supervisor.poll_ready_iff_restart_disconnected ⟨failStopCtx⟩ 0 (Or.inr rfl)

/-- Claim C2: if the Context's drive operation reports suspended
(`Ok(Async::NotReady)`), `poll` immediately returns `Ok(Async::NotReady)`:
the resulting Context has its restart counter unchanged (the restart
operation was not invoked) and its drive counter advanced by exactly one
(the Context was not driven again in that call). -/
theorem Supervisor.poll_suspended_returns_notReady {σ : Type} (s : Supervisor σ)
    (fuel : Nat)
    (h : s.ctx.driveScript s.ctx.drives = Except.ok Async.notReady) :
    Supervisor.poll (fuel + 1) s =
      some (Except.ok Async.notReady, ⟨{ s.ctx with drives := s.ctx.drives + 1 }⟩) :=
  Supervisor.poll_step_suspended s fuel h

/-- Witness for C2: a concrete always-suspended Context. -/
theorem Supervisor.poll_suspended_returns_notReady_witness :
    Supervisor.poll 1 (⟨suspCtx⟩ : Supervisor Nat) =
      some (Except.ok Async.notReady, ⟨{ suspCtx with drives := suspCtx.drives + 1 }⟩) :=
  Supervisor.poll_suspended_returns_notReady ⟨suspCtx⟩ 0 rfl

/-- Claim C3: (first conjunct) after a completed/failed report followed by a
restart that reports the Context still connected, the same `poll` call
immediately continues the loop on the restarted Context — the Context's
drive operation is re-invoked in the same call, with no value returned to
the scheduler in between; (second conjunct) `poll` yields
`Ok(Async::NotReady)` only immediately after a drive report of suspended, so
that is the only point at which the task relinquishes control. -/
theorem Supervisor.poll_yields_only_on_suspension {σ : Type} :
    (∀ (s : Supervisor σ) (fuel : Nat),
        (s.ctx.driveScript s.ctx.drives = Except.ok (Async.ready ()) ∨
            s.ctx.driveScript s.ctx.drives = Except.error ()) →
        s.ctx.connected s.ctx.restarts = true →
        Supervisor.poll (fuel + 1) s =
          Supervisor.poll fuel
            ⟨{ s.ctx with
                drives := s.ctx.drives + 1
                restarts := s.ctx.restarts + 1
                actorState := s.ctx.hook s.ctx.actorState }⟩) ∧
      (∀ (fuel : Nat) (s : Supervisor σ) (res : Poll Unit Unit) (s' : Supervisor σ),
          Supervisor.poll fuel s = some (res, s') → res = Except.ok Async.notReady →
          0 < s'.ctx.drives ∧
            s'.ctx.driveScript (s'.ctx.drives - 1) = Except.ok Async.notReady) :=
  ⟨fun s fuel h hc => Supervisor.poll_step_loop s fuel h hc,
   Supervisor.poll_notReady_last_drive_suspended⟩

/-- Witness for C3: the first conjunct applied to a concrete connected
failing Context, the second to a concrete suspended run of `poll`. -/
theorem Supervisor.poll_yields_only_on_suspension_witness :
    (Supervisor.poll 1 (⟨failLoopCtx⟩ : Supervisor Nat) =
        Supervisor.poll 0
          ⟨{ failLoopCtx with
              drives := failLoopCtx.drives + 1
              restarts := failLoopCtx.restarts + 1
              actorState := failLoopCtx.hook failLoopCtx.actorState }⟩) ∧
      (0 < (⟨{ suspCtx with drives := suspCtx.drives + 1 }⟩ : Supervisor Nat).ctx.drives ∧
        (⟨{ suspCtx with drives := suspCtx.drives + 1 }⟩ : Supervisor Nat).ctx.driveScript
            ((⟨{ suspCtx with drives := suspCtx.drives + 1 }⟩ : Supervisor Nat).ctx.drives - 1) =
          Except.ok Async.notReady) :=
  ⟨Supervisor.poll_yields_only_on_suspension.1 ⟨failLoopCtx⟩ 0 (Or.inr rfl) rfl,
   Supervisor.poll_yields_only_on_suspension.2 1 ⟨suspCtx⟩ (Except.ok Async.notReady)
     ⟨{ suspCtx with drives := suspCtx.drives + 1 }⟩ rfl rfl⟩

/-- Claim C4: if the Context's drive operation reports failed on every
invocation and its restart operation always finds it still connected, then
`poll` never returns — for every fuel bound the internal restart loop is
still running, so the Terminated state is never reached. -/
theorem Supervisor.poll_unbounded_restart_loop {σ : Type} (s : Supervisor σ)
    (hd : ∀ n, s.ctx.driveScript n = Except.error ())
    (hc : ∀ n, s.ctx.connected n = true) :
    ∀ fuel, Supervisor.poll fuel s = none := by
  intro fuel
  induction fuel generalizing s with
  | zero => rfl
  | succ n ih =>
    rw [Supervisor.poll_step_loop s n (Or.inr (hd s.ctx.drives)) (hc s.ctx.restarts)]
    exact ih _ hd hc

/-- Witness for C4: a concrete always-failing, always-connected Context and
fuel 5. -/
theorem Supervisor.poll_unbounded_restart_loop_witness :
    Supervisor.poll 5 (⟨failLoopCtx⟩ : Supervisor Nat) = none :=
  Supervisor.poll_unbounded_restart_loop ⟨failLoopCtx⟩ (fun _ => rfl) (fun _ => rfl) 5

/-- Claim C8: `poll` never returns an error to its scheduler — whatever the
Context's drive/restart outcomes, every value it returns is
`Ok(Async::NotReady)` or `Ok(Async::Ready(()))`, never `Err`. -/
theorem Supervisor.poll_never_errors {σ : Type} :
    ∀ (fuel : Nat) (s : Supervisor σ) (res : Poll Unit Unit) (s' : Supervisor σ),
      Supervisor.poll fuel s = some (res, s') →
      res = Except.ok Async.notReady ∨ res = Except.ok (Async.ready ()) := by
  intro fuel
  induction fuel with
  | zero =>
    intro s res s' h
    simp [Supervisor.poll] at h
  | succ n ih =>
    intro s res s' h
    cases hds : s.ctx.driveScript s.ctx.drives with
    | ok a =>
      cases a with
      | notReady =>
        rw [Supervisor.poll_step_suspended s n hds] at h
        simp only [Option.some.injEq, Prod.mk.injEq] at h
        exact Or.inl h.1.symm
      | ready v =>
        cases v
        by_cases hc : s.ctx.connected s.ctx.restarts
        · rw [Supervisor.poll_step_loop s n (Or.inl hds) hc] at h
          exact ih _ _ _ h
        · rw [Supervisor.poll_step_stop s n (Or.inl hds) (by simpa using hc)] at h
          simp only [Option.some.injEq, Prod.mk.injEq] at h
          exact Or.inr h.1.symm
    | error e =>
      cases e
      by_cases hc : s.ctx.connected s.ctx.restarts
      · rw [Supervisor.poll_step_loop s n (Or.inr hds) hc] at h
        exact ih _ _ _ h
      · rw [Supervisor.poll_step_stop s n (Or.inr hds) (by simpa using hc)] at h
        simp only [Option.some.injEq, Prod.mk.injEq] at h
        exact Or.inr h.1.symm

/-- Witness for C8: a concrete suspended run of `poll`. -/
theorem Supervisor.poll_never_errors_witness :
    (Except.ok Async.notReady : Poll Unit Unit) = Except.ok Async.notReady ∨
      (Except.ok Async.notReady : Poll Unit Unit) = Except.ok (Async.ready ()) :=
  Supervisor.poll_never_errors 1 ⟨suspCtx⟩ (Except.ok Async.notReady)
    ⟨{ suspCtx with drives := suspCtx.drives + 1 }⟩ rfl

/-- Claim C9: `poll` never replaces the Supervisor's one Context — it only
applies the Context's own drive/restart transitions, so across any run of
`poll` (hence across any number of restarts) the mailbox/address identity
and the actor-value generation of the Context are unchanged. -/
theorem Supervisor.poll_preserves_ctx_identity {σ : Type} :
    ∀ (fuel : Nat) (s : Supervisor σ) (res : Poll Unit Unit) (s' : Supervisor σ),
      Supervisor.poll fuel s = some (res, s') →
      s'.ctx.addrId = s.ctx.addrId ∧ s'.ctx.actorGen = s.ctx.actorGen := by
  intro fuel
  induction fuel with
  | zero =>
    intro s res s' h
    simp [Supervisor.poll] at h
  | succ n ih =>
    intro s res s' h
    cases hds : s.ctx.driveScript s.ctx.drives with
    | ok a =>
      cases a with
      | notReady =>
        rw [Supervisor.poll_step_suspended s n hds] at h
        simp only [Option.some.injEq, Prod.mk.injEq] at h
        obtain ⟨h1, h2⟩ := h
        subst h2
        exact ⟨rfl, rfl⟩
      | ready v =>
        cases v
        by_cases hc : s.ctx.connected s.ctx.restarts
        · rw [Supervisor.poll_step_loop s n (Or.inl hds) hc] at h
          have hh := ih _ _ _ h
          exact hh
        · rw [Supervisor.poll_step_stop s n (Or.inl hds) (by simpa using hc)] at h
          simp only [Option.some.injEq, Prod.mk.injEq] at h
          obtain ⟨h1, h2⟩ := h
          subst h2
          exact ⟨rfl, rfl⟩
    | error e =>
      cases e
      by_cases hc : s.ctx.connected s.ctx.restarts
      · rw [Supervisor.poll_step_loop s n (Or.inr hds) hc] at h
        have hh := ih _ _ _ h
        exact hh
      · rw [Supervisor.poll_step_stop s n (Or.inr hds) (by simpa using hc)] at h
        simp only [Option.some.injEq, Prod.mk.injEq] at h
        obtain ⟨h1, h2⟩ := h
        subst h2
        exact ⟨rfl, rfl⟩

/-- Witness for C9: a concrete suspended run of `poll` preserves the
identity fields. -/
theorem Supervisor.poll_preserves_ctx_identity_witness :
    (⟨{ suspCtx with drives := suspCtx.drives + 1 }⟩ : Supervisor Nat).ctx.addrId =
        (⟨suspCtx⟩ : Supervisor Nat).ctx.addrId ∧
      (⟨{ suspCtx with drives := suspCtx.drives + 1 }⟩ : Supervisor Nat).ctx.actorGen =
        (⟨suspCtx⟩ : Supervisor Nat).ctx.actorGen :=
  Supervisor.poll_preserves_ctx_identity 1 ⟨suspCtx⟩ (Except.ok Async.notReady)
    ⟨{ suspCtx with drives := suspCtx.drives + 1 }⟩ rfl

/-- Counterexample to C5 as stated: the claim puts the actor attachment
(`set_actor`) before the address extraction (`ctx.address()`), but the
source (lines 108-109) extracts the address first.  At a concrete closure
and world the trace of `Supervisor::start` is not the claimed one. -/
theorem Supervisor.start_order_counterexample :
    (Supervisor.start sampleInit startWorld).2.events ≠
      [Event.contextNew none 0, Event.runInit 0, Event.setActor 0,
       Event.extractAddress 0, Event.spawnSupervisor 0] := by
  decide

/-- Claim C5 (amended): `Supervisor::start` builds a new Context with no
external receiver, invokes the caller's closure exactly once, synchronously,
passing that Context; then extracts a cross-thread-safe Address from the
Context; then attaches the returned Actor value to the Context; then
schedules a Supervisor wrapping that Context on the caller's current event
loop; and finally returns that Address — in exactly that order. -/
theorem Supervisor.start_operation_order {α : Type} (f : CtxModel α → α × CtxModel α)
    (w : World) :
    (Supervisor.start f w).2.events =
        w.events ++
          [Event.contextNew none w.nextId, Event.runInit w.nextId,
           Event.extractAddress (f ⟨w.nextId, none, none⟩).2.mailboxId,
           Event.setActor (f ⟨w.nextId, none, none⟩).2.mailboxId,
           Event.spawnSupervisor (f ⟨w.nextId, none, none⟩).2.mailboxId] ∧
      (Supervisor.start f w).1 = ⟨(f ⟨w.nextId, none, none⟩).2.mailboxId⟩ := by
  rcases hf : f ⟨w.nextId, none, none⟩ with ⟨act, ctx1⟩
  simp [Supervisor.start, Context.new, World.log, CtxModel.address, CtxModel.set_actor,
    Arbiter.spawn, hf]

/-- Claim C6: `Supervisor::start_in` allocates a bounded channel pair at the
default mailbox capacity on the calling thread before any actor exists (the
calling-thread trace holds only the allocation and the Execute send, no
Context or actor operation), and immediately returns a cross-thread-safe
Address wrapping the sender end of exactly that pair — independent of
anything the target event loop may or may not have executed. -/
theorem Supervisor.start_in_channel_and_address {α : Type} (arb : Addr)
    (f : CtxModel α → α × CtxModel α) (w : World) :
    (Supervisor.start_in arb f w).2.events =
        w.events ++
          [Event.channelAlloc DEFAULT_CAPACITY w.nextId, Event.sendExecute arb.target] ∧
      (Supervisor.start_in arb f w).1.1 = Addr.new w.nextId := by
  simp [Supervisor.start_in, sync_channel.channel, Addr.do_send, World.log, Execute.new,
    Addr.new]

/-- Claim C7: `Supervisor::start_in` sends exactly one Execute request to the
target event loop (the trace gains exactly one `sendExecute` event, and the
request is never re-sent), and the deferred closure that request carries,
when run on the target thread, builds a Context using the pre-created
receiver end of the allocated pair, runs the caller's closure against it,
attaches the Actor, and schedules a Supervisor on that event loop. -/
theorem Supervisor.start_in_single_execute_payload {α : Type} (arb : Addr)
    (f : CtxModel α → α × CtxModel α) (w w2 : World) :
    ((Supervisor.start_in arb f w).2.events.filter Event.isSendExecute).length =
        (w.events.filter Event.isSendExecute).length + 1 ∧
      ((Supervisor.start_in arb f w).1.2.run w2).2.events =
        w2.events ++
          [Event.contextNew (some w.nextId) w.nextId, Event.runInit w.nextId,
           Event.setActor (f ⟨w.nextId, some w.nextId, none⟩).2.mailboxId,
           Event.spawnSupervisor (f ⟨w.nextId, some w.nextId, none⟩).2.mailboxId] := by
  constructor
  · simp [Supervisor.start_in, sync_channel.channel, Addr.do_send, World.log, Execute.new,
      List.filter_append, Event.isSendExecute]
  · rcases hf : f ⟨w.nextId, some w.nextId, none⟩ with ⟨act, ctx1⟩
    simp [Supervisor.start_in, Supervisor.startInBody, sync_channel.channel, Addr.do_send,
      Context.with_receiver, World.log, Execute.new, CtxModel.set_actor, Arbiter.spawn, hf]

/-- Claim C10: the deferred closure `start_in` packs into the Execute request
always returns `Ok(())`, whatever closure the caller supplied and whatever
world it runs in: remote construction reports success unconditionally. -/
theorem Supervisor.start_in_payload_returns_ok {α : Type} (arb : Addr)
    (f : CtxModel α → α × CtxModel α) (w w2 : World) :
    ((Supervisor.start_in arb f w).1.2.run w2).1 = Except.ok () := by
  rcases hf : f ⟨w.nextId, some w.nextId, none⟩ with ⟨act, ctx1⟩
  simp [Supervisor.start_in, Supervisor.startInBody, sync_channel.channel, Addr.do_send,
    Context.with_receiver, World.log, Execute.new, CtxModel.set_actor, Arbiter.spawn, hf]
